import Mathlib

/-!
Verification of the `card`/`hub` request modules of the notecard driver
(`src/card.rs`, `src/hub.rs`).

The requests and responses are newline-terminated compact JSON objects.  We
model JSON values as an inductive type, the `serde` derive serializer of the
request structs as functions into that type (fields in declaration order,
`skip_serializing_if = "Option::is_none"` fields omitted when `None`), and
the `serde` derive deserializer of the response structs as functions out of
it (required fields must be present, `Option` fields default to `None`,
`#[serde(default)]` booleans default to `false`, unknown fields are ignored,
duplicate known fields are an error).  Text-level encoding follows
`serde_json_core`: compact output, strings escaped, integer numerals.  JSON
float literals and `\u` escapes never occur in any request or response
considered here and are out of scope (the spec treats the byte codec as an
external collaborator, spec section 1).
-/

/-- A JSON value.  Numbers are modelled by integers: every numeric field
exercised by the driver's requests and responses is integer-valued; the
`f32`/`f64` fields of the source are carried as integer-valued JSON numbers
(float formatting belongs to the out-of-scope codec). -/
inductive Json where
  | null : Json
  | bool : Bool → Json
  | num : Int → Json
  | str : String → Json
  | arr : List Json → Json
  | obj : List (String × Json) → Json
deriving Repr

/-- One hexadecimal digit, lower case. -/
def hexDigit (n : Nat) : Char :=
  if n < 10 then Char.ofNat (48 + n) else Char.ofNat (87 + n)

/-- JSON string escaping of one character, as `serde_json_core` performs it
when serializing a string: quote and backslash are escaped, control
characters use the short escapes or a `\u00XX` escape. -/
def escapeChar (c : Char) : String :=
  if c = '\"' then "\\\""
  else if c = '\\' then "\\\\"
  else if c = '\n' then "\\n"
  else if c = '\r' then "\\r"
  else if c = '\t' then "\\t"
  else if c = Char.ofNat 8 then "\\b"
  else if c = Char.ofNat 12 then "\\f"
  else if c.toNat < 32 then "\\u00" ++ String.mk [hexDigit (c.toNat / 16), hexDigit (c.toNat % 16)]
  else String.singleton c

/-- JSON string escaping, character by character. -/
def escapeStr (s : String) : String :=
  String.join (s.data.map escapeChar)

mutual

/-- Compact JSON text of a value, as `serde_json_core` produces it: no
whitespace, fields in the order the serializer emitted them. -/
def Json.render : Json → String
  | .null => "null"
  | .bool true => "true"
  | .bool false => "false"
  | .num n => toString n
  | .str s => "\"" ++ escapeStr s ++ "\""
  | .arr xs => "[" ++ Json.renderItems xs ++ "]"
  | .obj fs => "\x7b" ++ Json.renderFields fs ++ "\x7d"

/-- Comma-separated rendering of array elements. -/
def Json.renderItems : List Json → String
  | [] => ""
  | [j] => j.render
  | j :: rest => j.render ++ "," ++ Json.renderItems rest

/-- Comma-separated rendering of object fields. -/
def Json.renderFields : List (String × Json) → String
  | [] => ""
  | [(k, v)] => "\"" ++ escapeStr k ++ "\":" ++ v.render
  | (k, v) :: rest => "\"" ++ escapeStr k ++ "\":" ++ v.render ++ "," ++ Json.renderFields rest

end

/-- JSON insignificant whitespace. -/
def isWs (c : Char) : Bool :=
  c == ' ' || c == '\n' || c == '\t' || c == '\r'

/-- Drop leading insignificant whitespace. -/
def skipWs (cs : List Char) : List Char :=
  cs.dropWhile isWs

/-- Parse the body of a JSON string after the opening quote, unescaping the
short escapes; returns the content and the input after the closing quote. -/
def parseStringBody : List Char → Option (List Char × List Char)
  | [] => none
  | '\"' :: rest => some ([], rest)
  | '\\' :: c :: rest =>
    match (match c with
           | '\"' => some '\"'
           | '\\' => some '\\'
           | '/' => some '/'
           | 'n' => some '\n'
           | 't' => some '\t'
           | 'r' => some '\r'
           | 'b' => some (Char.ofNat 8)
           | 'f' => some (Char.ofNat 12)
           | _ => none) with
    | some d => (parseStringBody rest).map fun p => (d :: p.1, p.2)
    | none => none
  | c :: rest => (parseStringBody rest).map fun p => (c :: p.1, p.2)

/-- Decimal digits to a natural number. -/
def digitsToNat (ds : List Char) : Nat :=
  ds.foldl (fun a c => a * 10 + (c.toNat - 48)) 0

/-- Parse an integer JSON numeral (optional minus sign, decimal digits). -/
def parseNum : List Char → Option (Int × List Char)
  | '-' :: rest =>
    let ds := rest.takeWhile fun c => c.isDigit
    if ds.isEmpty then none else some (-(digitsToNat ds : Int), rest.drop ds.length)
  | cs =>
    let ds := cs.takeWhile fun c => c.isDigit
    if ds.isEmpty then none else some ((digitsToNat ds : Int), cs.drop ds.length)

mutual

/-- Parse one JSON value (fuelled recursive descent). -/
def parseVal : Nat → List Char → Option (Json × List Char)
  | 0, _ => none
  | fuel + 1, cs =>
    match skipWs cs with
    | [] => none
    | 'n' :: 'u' :: 'l' :: 'l' :: rest => some (.null, rest)
    | 't' :: 'r' :: 'u' :: 'e' :: rest => some (.bool true, rest)
    | 'f' :: 'a' :: 'l' :: 's' :: 'e' :: rest => some (.bool false, rest)
    | '\"' :: rest => (parseStringBody rest).map fun p => (.str (String.mk p.1), p.2)
    | '[' :: rest =>
      (match skipWs rest with
       | ']' :: r2 => some (.arr [], r2)
       | _ => (parseItems fuel rest).map fun p => (.arr p.1, p.2))
    | '\x7b' :: rest =>
      (match skipWs rest with
       | '\x7d' :: r2 => some (.obj [], r2)
       | _ => (parseFields fuel rest).map fun p => (.obj p.1, p.2))
    | rest => (parseNum rest).map fun p => (.num p.1, p.2)

/-- Parse the non-empty element list of a JSON array, up to and including the
closing bracket. -/
def parseItems : Nat → List Char → Option (List Json × List Char)
  | 0, _ => none
  | fuel + 1, cs =>
    match parseVal fuel cs with
    | none => none
    | some (j, rest) =>
      match skipWs rest with
      | ',' :: r2 => (parseItems fuel r2).map fun p => (j :: p.1, p.2)
      | ']' :: r2 => some ([j], r2)
      | _ => none

/-- Parse the non-empty field list of a JSON object, up to and including the
closing brace. -/
def parseFields : Nat → List Char → Option (List (String × Json) × List Char)
  | 0, _ => none
  | fuel + 1, cs =>
    match skipWs cs with
    | '\"' :: rest =>
      (match parseStringBody rest with
       | none => none
       | some (kcs, r1) =>
         match skipWs r1 with
         | ':' :: r2 =>
           (match parseVal fuel r2 with
            | none => none
            | some (v, r3) =>
              match skipWs r3 with
              | ',' :: r4 => (parseFields fuel r4).map fun p => ((String.mk kcs, v) :: p.1, p.2)
              | '\x7d' :: r4 => some ([(String.mk kcs, v)], r4)
              | _ => none)
         | _ => none)
    | _ => none

end

/-- Parse a complete JSON document: one value, optionally surrounded by
whitespace, consuming the whole input (`serde_json_core::from_slice`). -/
def Json.parse (s : String) : Option Json :=
  match parseVal (s.length * 4 + 4) s.data with
  | some (j, rest) => if (skipWs rest).isEmpty then some j else none
  | none => none

/-- First value stored under key `k` in a JSON object's field list (the order
in which `serde` visits map entries). -/
def findField (k : String) : List (String × Json) → Option Json
  | [] => none
  | (k', v) :: rest => if k' = k then some v else findField k rest

/-- Number of occurrences of key `k` in a JSON object's field list. -/
def countKey (k : String) : List (String × Json) → Nat
  | [] => 0
  | (k', _) :: rest => (if k' = k then 1 else 0) + countKey k rest

/-- A `serde` derive deserializer errors when a known field occurs twice.
`dupKey keys o` holds when some known key occurs at least twice in `o`. -/
def dupKey (keys : List String) (o : List (String × Json)) : Prop :=
  ∃ k ∈ keys, 2 ≤ countKey k o

instance (keys : List String) (o : List (String × Json)) : Decidable (dupKey keys o) := by
  unfold dupKey; infer_instance

/-- Decoder for a `heapless::String<cap>` field: a JSON string whose UTF-8
byte length fits the capacity (larger strings are a capacity error). -/
def asStr (cap : Nat) : Json → Option String
  | .str s => if s.utf8ByteSize ≤ cap then some s else none
  | _ => none

/-- Decoder for a borrowed `&str` field (no capacity bound). -/
def asAnyStr : Json → Option String
  | .str s => some s
  | _ => none

/-- Decoder for a `bool` field. -/
def asBool : Json → Option Bool
  | .bool b => some b
  | _ => none

/-- Decoder for a `u32` field: an integer numeral in `[0, 2^32)` (`u32`
values are modelled as range-bounded `Int`). -/
def asU32 : Json → Option Int
  | .num n => if 0 ≤ n ∧ n < 4294967296 then some n else none
  | _ => none

/-- Decoder for a `u64` field: an integer numeral in `[0, 2^64)` (`u64`
values are modelled as range-bounded `Int`). -/
def asU64 : Json → Option Int
  | .num n => if 0 ≤ n ∧ n < 18446744073709551616 then some n else none
  | _ => none

/-- Decoder for an `i32` field: an integer numeral in `[-2^31, 2^31)`. -/
def asI32 : Json → Option Int
  | .num n => if -2147483648 ≤ n ∧ n < 2147483648 then some n else none
  | _ => none

/-- Decoder for an `f32`/`f64` field, whose values are modelled as
integer-valued JSON numbers (see `Json`). -/
def asFloat : Json → Option Int
  | .num n => some n
  | _ => none

/-- A required struct field: must be present and decode. -/
def decReq (dec : Json → Option α) (o : List (String × Json)) (k : String) : Option α :=
  (findField k o).bind dec

/-- An `Option` struct field: absent or `null` is `None`, otherwise the value
must decode (`serde`'s treatment of `Option` fields). -/
def decOpt (dec : Json → Option α) (o : List (String × Json)) (k : String) : Option (Option α) :=
  match findField k o with
  | none => some none
  | some .null => some none
  | some v => (dec v).map fun a => some a

/-- A `#[serde(default)]` field: absent means the default, a present value
must decode. -/
def decDefault (dec : Json → Option α) (d : α) (o : List (String × Json)) (k : String) : Option α :=
  match findField k o with
  | none => some d
  | some v => dec v

/-- Serializer helper: an `Option` field under
`#[serde(skip_serializing_if = "Option::is_none")]` contributes its rendered
entry when `Some`, nothing when `None`. -/
def addOpt (k : String) (f : α → Json) (v : Option α) (rest : List (String × Json)) :
    List (String × Json) :=
  match v with
  | none => rest
  | some a => (k, f a) :: rest

/-- Decode success combined with parsing: `serde_json_core::from_slice` of a
response frame, modelled as JSON parsing followed by the struct decoder. -/
def fromSlice (dec : Json → Option α) (s : String) : Option α :=
  (Json.parse s).bind dec

/-- Modelled from the spec: `Notecard::request` (the Request/Response
Engine's `submit_structured`, in the crate root that is not under `src/`)
serializes the request value and appends the newline terminator before
transmission (spec section 4.4). -/
def frame (j : Json) : String :=
  j.render ++ "\n"

/-- Modelled from the spec: `heapless::String::<cap>::from(s)` as used by the
builders; the conversion panics (`push_str(..).unwrap()` in `heapless`) when
`s` does not fit the capacity in bytes, which we model as `none`. -/
def heaplessFrom (cap : Nat) (s : String) : Option String :=
  if s.utf8ByteSize ≤ cap then some s else none

/-- Lift of `heaplessFrom` under `Option`: `none` stays `none`, an oversized
`some` models the panic. -/
def heaplessFromOpt (cap : Nat) : Option String → Option (Option String)
  | none => some none
  | some s => (heaplessFrom cap s).map fun t => some t

namespace card

namespace req

/-- Struct `card::req::LocationTrack` (card.rs lines 101-122): the serialized
request for `card.location.track`.  `heapless::String<20>` fields are
modelled as `String` (their 20-byte capacity is enforced at construction by
`heaplessFrom`). -/
structure LocationTrack where
  req : String
  start : Option Bool
  heartbeat : Option Bool
  sync : Option Bool
  stop : Option Bool
  hours : Option Int
  file : Option String
deriving DecidableEq, Repr

/-- Serializer layout of `card::req::LocationTrack`: fields in declaration
order, `None` fields skipped. -/
def LocationTrack.jsonFields (r : LocationTrack) : List (String × Json) :=
  ("req", .str r.req) ::
    addOpt "start" .bool r.start
      (addOpt "heartbeat" .bool r.heartbeat
        (addOpt "sync" .bool r.sync
          (addOpt "stop" .bool r.stop
            (addOpt "hours" .num r.hours
              (addOpt "file" .str r.file [])))))

/-- Derived `serde::Serialize` of `card::req::LocationTrack`. -/
def LocationTrack.toJson (r : LocationTrack) : Json :=
  .obj r.jsonFields

/-- Derived `serde::Deserialize` of `card::req::LocationTrack`. -/
def LocationTrack.decode : Json → Option LocationTrack
  | .obj o =>
    if dupKey ["req", "start", "heartbeat", "sync", "stop", "hours", "file"] o then none
    else
      (decReq asAnyStr o "req").bind fun rq =>
      (decOpt asBool o "start").bind fun start =>
      (decOpt asBool o "heartbeat").bind fun heartbeat =>
      (decOpt asBool o "sync").bind fun sync =>
      (decOpt asBool o "stop").bind fun stop =>
      (decOpt asU32 o "hours").bind fun hours =>
      (decOpt (asStr 20) o "file").bind fun file =>
      some ⟨rq, start, heartbeat, sync, stop, hours, file⟩
  | _ => none

/-- Struct `card::req::LocationMode` (card.rs lines 124-151): the serialized request
for `card.location.mode`.  The `f32` fields `lat`/`lon` are carried as
integer-valued JSON numbers (see `Json`). -/
structure LocationMode where
  req : String
  mode : Option String
  seconds : Option Int
  vseconds : Option String
  delete : Option Bool
  max : Option Int
  lat : Option Int
  lon : Option Int
  minutes : Option Int
deriving DecidableEq, Repr

/-- Serializer layout of `card::req::LocationMode`: fields in declaration
order, `None` fields skipped. -/
def LocationMode.jsonFields (r : LocationMode) : List (String × Json) :=
  ("req", .str r.req) ::
    addOpt "mode" .str r.mode
      (addOpt "seconds" .num r.seconds
        (addOpt "vseconds" .str r.vseconds
          (addOpt "delete" .bool r.delete
            (addOpt "max" .num r.max
              (addOpt "lat" .num r.lat
                (addOpt "lon" .num r.lon
                  (addOpt "minutes" .num r.minutes [])))))))

/-- Derived `serde::Serialize` of `card::req::LocationMode`. -/
def LocationMode.toJson (r : LocationMode) : Json :=
  .obj r.jsonFields

/-- Derived `serde::Deserialize` of `card::req::LocationMode`. -/
def LocationMode.decode : Json → Option LocationMode
  | .obj o =>
    if dupKey ["req", "mode", "seconds", "vseconds", "delete", "max", "lat", "lon", "minutes"] o
    then none
    else
      (decReq asAnyStr o "req").bind fun rq =>
      (decOpt (asStr 20) o "mode").bind fun mode =>
      (decOpt asU32 o "seconds").bind fun seconds =>
      (decOpt (asStr 20) o "vseconds").bind fun vseconds =>
      (decOpt asBool o "delete").bind fun delete =>
      (decOpt asU32 o "max").bind fun mx =>
      (decOpt asFloat o "lat").bind fun lat =>
      (decOpt asFloat o "lon").bind fun lon =>
      (decOpt asU32 o "minutes").bind fun minutes =>
      some ⟨rq, mode, seconds, vseconds, delete, mx, lat, lon, minutes⟩
  | _ => none

end req

namespace res

/-- Struct `card::res::Time` (card.rs lines 191-200): the success payload of
`card.time`.  `f64` fields carried as integers (see `Json`). -/
structure Time where
  time : Option Int
  area : Option String
  zone : Option String
  minutes : Option Int
  lat : Option Int
  lon : Option Int
  country : Option String
deriving DecidableEq, Repr

/-- Derived `serde::Deserialize` of `card::res::Time`. -/
def Time.decode : Json → Option Time
  | .obj o =>
    if dupKey ["time", "area", "zone", "minutes", "lat", "lon", "country"] o then none
    else
      (decOpt asU32 o "time").bind fun time =>
      (decOpt (asStr 20) o "area").bind fun area =>
      (decOpt (asStr 20) o "zone").bind fun zone =>
      (decOpt asI32 o "minutes").bind fun minutes =>
      (decOpt asFloat o "lat").bind fun lat =>
      (decOpt asFloat o "lon").bind fun lon =>
      (decOpt (asStr 10) o "country").bind fun country =>
      some ⟨time, area, zone, minutes, lat, lon, country⟩
  | _ => none

/-- Struct `card::res::Status` (card.rs lines 202-211): the success payload of
`card.status`.  `status` and `storage` are required; `usb` and `connected`
carry `#[serde(default)]` and default to `false`; `storage : usize` is
modelled with the 32-bit range of the embedded target. -/
structure Status where
  status : String
  usb : Bool
  storage : Int
  time : Option Int
  connected : Bool
deriving DecidableEq, Repr

/-- Derived `serde::Deserialize` of `card::res::Status`. -/
def Status.decode : Json → Option Status
  | .obj o =>
    if dupKey ["status", "usb", "storage", "time", "connected"] o then none
    else
      (decReq (asStr 10) o "status").bind fun status =>
      (decDefault asBool false o "usb").bind fun usb =>
      (decReq asU32 o "storage").bind fun storage =>
      (decOpt asU64 o "time").bind fun time =>
      (decDefault asBool false o "connected").bind fun connected =>
      some ⟨status, usb, storage, time, connected⟩
  | _ => none

end res

end card

/-- Method `Card::time` (card.rs line 23): the raw request frame passed to
`request_raw`. -/
def card.time_raw : String := "\x7b\"req\":\"card.time\"\x7d\n"

/-- Method `Card::status` (card.rs line 29): the raw request frame. -/
def card.status_raw : String := "\x7b\"req\":\"card.status\"\x7d\n"

/-- Method `Card::restart` (card.rs line 35): the raw request frame. -/
def card.restart_raw : String := "\x7b\"req\":\"card.restart\"\x7d\n"

/-- Method `Card::location` (card.rs line 41): the raw request frame. -/
def card.location_raw : String := "\x7b\"req\":\"card.location\"\x7d\n"

/-- Method `Card::wireless` (card.rs line 93): the raw request frame. -/
def card.wireless_raw : String := "\x7b\"req\":\"card.wireless\"\x7d\n"

/-- Method `Hub::sync` (hub.rs line 56): the raw request frame. -/
def hub.sync_raw : String := "\x7b\"req\":\"hub.sync\"\x7d\n"

/-- Method `Hub::sync_status` (hub.rs line 62): the raw request frame. -/
def hub.sync_status_raw : String := "\x7b\"req\":\"hub.sync.status\"\x7d\n"

/-- Method `Card::location_mode` (card.rs lines 46-69): builds the
`card.location.mode` request value.  The `heapless::String::from`
conversions of `mode` and `vseconds` panic on arguments over 20 bytes,
modelled by `none`. -/
def card.location_mode (mode : Option String) (seconds : Option Int)
    (vseconds : Option String) (delete : Option Bool) (max : Option Int)
    (lat : Option Int) (lon : Option Int) (minutes : Option Int) :
    Option card.req.LocationMode :=
  (heaplessFromOpt 20 mode).bind fun mode' =>
  (heaplessFromOpt 20 vseconds).bind fun vseconds' =>
  some ⟨"card.location.mode", mode', seconds, vseconds', delete, max, lat, lon, minutes⟩

/-- Method `Card::location_track` (card.rs lines 71-90): builds the
`card.location.track` request value.  `start.then(|| true)` gives
`Some(true)` exactly when `start` holds, `(!start).then(|| true)` gives
`Some(true)` exactly when it does not; the `heapless::String::from`
conversion of `file` panics on arguments over 20 bytes, modelled by
`none`. -/
def card.location_track (start heartbeat sync : Bool) (hours : Option Int)
    (file : Option String) : Option card.req.LocationTrack :=
  (heaplessFromOpt 20 file).bind fun file' =>
  some ⟨"card.location.track",
        if start then some true else none,
        if heartbeat then some true else none,
        if sync then some true else none,
        if start then none else some true,
        hours, file'⟩

namespace hub

namespace req

/-- Enum `hub::req::HubMode` (hub.rs lines 70-78), serialized with
`rename_all = "lowercase"`. -/
inductive HubMode where
  | Periodic
  | Continuous
  | Minimum
  | Off
  | DFU
deriving DecidableEq, Repr

/-- Serializer of `hub::req::HubMode`: the lowercase variant name. -/
def HubMode.toJson : HubMode → Json
  | .Periodic => .str "periodic"
  | .Continuous => .str "continuous"
  | .Minimum => .str "minimum"
  | .Off => .str "off"
  | .DFU => .str "dfu"

/-- Deserializer of `hub::req::HubMode`. -/
def HubMode.ofJson : Json → Option HubMode
  | .str s =>
    if s = "periodic" then some .Periodic
    else if s = "continuous" then some .Continuous
    else if s = "minimum" then some .Minimum
    else if s = "off" then some .Off
    else if s = "dfu" then some .DFU
    else none
  | _ => none

/-- Struct `hub::req::HubSet` (hub.rs lines 80-91): the serialized request for
`hub.set`.  `product` has no skip attribute and is always serialized
(`null` for `None`); `host`, `mode` and `sn` are skipped when `None`. -/
structure HubSet where
  req : String
  product : Option String
  host : Option String
  mode : Option HubMode
  sn : Option String
deriving DecidableEq, Repr

/-- Serializer layout of `hub::req::HubSet`. -/
def HubSet.jsonFields (r : HubSet) : List (String × Json) :=
  ("req", .str r.req) ::
    ("product", match r.product with | none => .null | some s => .str s) ::
      addOpt "host" .str r.host
        (addOpt "mode" HubMode.toJson r.mode
          (addOpt "sn" .str r.sn []))

/-- Derived `serde::Serialize` of `hub::req::HubSet`. -/
def HubSet.toJson (r : HubSet) : Json :=
  .obj r.jsonFields

/-- Derived `serde::Deserialize` of `hub::req::HubSet` (`&str` fields are borrowed,
without a capacity bound). -/
def HubSet.decode : Json → Option HubSet
  | .obj o =>
    if dupKey ["req", "product", "host", "mode", "sn"] o then none
    else
      (decReq asAnyStr o "req").bind fun rq =>
      (decOpt asAnyStr o "product").bind fun product =>
      (decOpt asAnyStr o "host").bind fun host =>
      (decOpt HubMode.ofJson o "mode").bind fun mode =>
      (decOpt asAnyStr o "sn").bind fun sn =>
      some ⟨rq, product, host, mode, sn⟩
  | _ => none

end req

/-- Method `Hub::set` (hub.rs lines 37-52): builds the `hub.set` request value (all
arguments are borrowed `&str`, so construction cannot fail). -/
def set (product host : Option String) (mode : Option req.HubMode) (sn : Option String) :
    req.HubSet :=
  ⟨"hub.set", product, host, mode, sn⟩

end hub

/-- Outcome of resolving a deferred response, spec section 3. -/
inductive Outcome (α : Type) where
  | success (a : α)
  | deviceError (msg : String)
  | decodeError
deriving DecidableEq, Repr

/-- Modelled from the spec: the error envelope decoder (`NotecardError` in
the crate root, not under `src/`): a response frame whose reserved field
`err` holds a string message (spec sections 4.4 and 6). -/
def errEnvelope : Json → Option String
  | .obj o =>
    match findField "err" o with
    | some (.str m) => some m
    | _ => none
  | _ => none

/-- Modelled from the spec: `FutureResponse::resolve` (the Request/Response
Engine, in the crate root that is not under `src/`): decode the device error
envelope first; if the reserved field is present return `DeviceError`
verbatim, otherwise decode as the caller's expected structured type
(spec section 4.4). -/
def resolve (dec : Json → Option α) (j : Json) : Outcome α :=
  match errEnvelope j with
  | some m => .deviceError m
  | none =>
    match dec j with
    | some a => .success a
    | none => .decodeError

section Lemmas

variable {α : Type} {k k' : String} {f : α → Json} {v : Option α} {a : α}
variable {rest : List (String × Json)}

@[simp]
theorem findField_addOpt_ne (h : ¬ k' = k) :
    findField k (addOpt k' f v rest) = findField k rest := by
  cases v <;> simp [addOpt, findField, h]

@[simp]
theorem findField_addOpt_some :
    findField k (addOpt k f (some a) rest) = some (f a) := by
  simp [addOpt, findField]

@[simp]
theorem addOpt_none : addOpt k f none rest = rest := rfl

@[simp]
theorem countKey_addOpt_ne (h : ¬ k' = k) :
    countKey k (addOpt k' f v rest) = countKey k rest := by
  cases v <;> simp [addOpt, countKey, h]

@[simp]
theorem countKey_addOpt_self :
    countKey k (addOpt k f v rest) = (if v.isSome then 1 else 0) + countKey k rest := by
  cases v <;> simp [addOpt, countKey]

@[simp]
theorem countKey_cons_self {j : Json} :
    countKey k ((k, j) :: rest) = 1 + countKey k rest := by
  simp [countKey]

@[simp]
theorem countKey_cons_ne {j : Json} (h : ¬ k' = k) :
    countKey k ((k', j) :: rest) = countKey k rest := by
  simp [countKey, h]

@[simp]
theorem countKey_nil : countKey k [] = 0 := rfl

@[simp]
theorem findField_nil : findField k [] = none := rfl

@[simp]
theorem findField_cons_self {j : Json} :
    findField k ((k, j) :: rest) = some j := by
  simp [findField]

@[simp]
theorem findField_cons_ne {j : Json} (h : ¬ k' = k) :
    findField k ((k', j) :: rest) = findField k rest := by
  simp [findField, h]

end Lemmas

/-- C1: `Card::time` sends exactly the raw request bytes
`\x7b"req":"card.time"\x7d` followed by a newline, and decoding the peer
response `\x7b"zone":"UTC,Unknown"\x7d` as `res::Time` succeeds with `zone`
equal to `"UTC,Unknown"` and every other field (`time`, `area`, `minutes`,
`lat`, `lon`, `country`) absent. -/
theorem c1_card_time_request_and_decode :
    card.time_raw = "\x7b\"req\":\"card.time\"\x7d\n" ∧
    fromSlice card.res.Time.decode "\x7b\"zone\":\"UTC,Unknown\"\x7d" =
      some ⟨none, none, some "UTC,Unknown", none, none, none, none⟩ := by
  exact ⟨rfl, by decide⟩

/-- C2 counterexample: at `seconds = Some 60`, `mode = Some "periodic"` and
all other arguments `None`, `Card::location_mode` does not serialize to the
claimed bytes with `"seconds"` before `"mode"`: `serde` emits fields in
struct declaration order, which puts `"mode"` first. -/
theorem c2_counterexample :
    (card.location_mode (some "periodic") (some 60) none none none none none none).map
        (fun r => frame r.toJson) ≠
      some "\x7b\"req\":\"card.location.mode\",\"seconds\":60,\"mode\":\"periodic\"\x7d\n" := by
  decide

/-- C2 as amended: the same call serializes to exactly
`\x7b"req":"card.location.mode","mode":"periodic","seconds":60\x7d` followed
by the newline terminator, with no other fields present (declaration order:
`mode` before `seconds`). -/
theorem c2_location_mode_bytes :
    (card.location_mode (some "periodic") (some 60) none none none none none none).map
        (fun r => frame r.toJson) =
      some "\x7b\"req\":\"card.location.mode\",\"mode\":\"periodic\",\"seconds\":60\x7d\n" := by
  decide

/-- C3: a response frame whose reserved `err` field holds a string message is
always resolved as `DeviceError` with that message verbatim, whatever the
expected success decoder and whatever other fields the frame carries. -/
theorem c3_error_envelope_precedence {α : Type} (dec : Json → Option α)
    (o : List (String × Json)) (m : String)
    (h : findField "err" o = some (Json.str m)) :
    resolve dec (Json.obj o) = Outcome.deviceError m := by
  simp [resolve, errEnvelope, h]

/-- C3 witness: the source test frame
`\x7b"err":"time is not yet set","zone":"UTC,Unknown"\x7d` resolves to
`DeviceError "time is not yet set"` even though it also matches the
`res::Time` success shape. -/
theorem c3_error_envelope_precedence_witness :
    resolve card.res.Time.decode
        (Json.obj [("err", Json.str "time is not yet set"),
                   ("zone", Json.str "UTC,Unknown")]) =
      Outcome.deviceError "time is not yet set" :=
  c3_error_envelope_precedence card.res.Time.decode _ _ rfl

/-- C6 counterexample: `Card::location_mode` with a 21-byte `mode` argument
panics (in `heapless::String::<20>::from`, which unwraps `push_str`) instead
of returning `Ok` or a `NoteError`; the model returns `none` for the
panic. -/
theorem c6_counterexample :
    card.location_mode (some "abcdefghijklmnopqrstu") none none none none none none none =
      none := by
  decide

/-- C6 as amended: `Card::location_mode` and `Card::location_track` construct
their request without panicking whenever every string argument (`mode`,
`vseconds`, `file`) fits the 20-byte capacity of its request field; a longer
string argument panics in `heapless::String::from`. -/
theorem c6_no_panic_within_capacity :
    (∀ (mode vseconds : Option String) (seconds : Option Int) (delete : Option Bool)
        (mx : Option Int) (lat lon : Option Int) (minutes : Option Int),
      (∀ s, mode = some s → s.utf8ByteSize ≤ 20) →
      (∀ s, vseconds = some s → s.utf8ByteSize ≤ 20) →
      (card.location_mode mode seconds vseconds delete mx lat lon minutes).isSome) ∧
    (∀ (start heartbeat sync : Bool) (hours : Option Int) (file : Option String),
      (∀ s, file = some s → s.utf8ByteSize ≤ 20) →
      (card.location_track start heartbeat sync hours file).isSome) := by
  constructor
  · intro mode vseconds seconds delete mx lat lon minutes hm hv
    cases mode with
    | none =>
      cases vseconds with
      | none => simp [card.location_mode, heaplessFromOpt]
      | some s =>
        simp [card.location_mode, heaplessFromOpt, heaplessFrom, hv s rfl]
    | some s =>
      cases vseconds with
      | none =>
        simp [card.location_mode, heaplessFromOpt, heaplessFrom, hm s rfl]
      | some t =>
        simp [card.location_mode, heaplessFromOpt, heaplessFrom, hm s rfl, hv t rfl]
  · intro start heartbeat sync hours file hf
    cases file with
    | none => simp [card.location_track, heaplessFromOpt]
    | some s =>
      simp [card.location_track, heaplessFromOpt, heaplessFrom, hf s rfl]

/-- C6 witness: at `mode = Some "periodic"`, `vseconds = None` and
`file = Some "track.qo"` both builders succeed. -/
theorem c6_no_panic_within_capacity_witness :
    (card.location_mode (some "periodic") none none none none none none none).isSome ∧
    (card.location_track true false true (some 2) (some "track.qo")).isSome :=
  ⟨c6_no_panic_within_capacity.1 (some "periodic") none none none none none none none
      (by intro s hs; cases hs; decide) (by intro s hs; cases hs),
   c6_no_panic_within_capacity.2 true false true (some 2) (some "track.qo")
      (by intro s hs; cases hs; decide)⟩

/-- C8: every raw request frame passed to `request_raw` by the `Card` and
`Hub` operations (`card.time`, `card.status`, `card.restart`,
`card.location`, `card.wireless`, `hub.sync`, `hub.sync.status`) ends with
the newline terminator. -/
theorem c8_raw_requests_newline_terminated :
    ([card.time_raw, card.status_raw, card.restart_raw, card.location_raw,
      card.wireless_raw, hub.sync_raw, hub.sync_status_raw].all
        fun s => s.data.getLast? == some '\n') = true := by
  decide

/-- C5: decoding a `card.status` response as `res::Status` fails whenever the
object lacks the required field `storage` or `status`, while an object
carrying only `status`, `storage` and `time` decodes successfully with the
`#[serde(default)]` fields `usb` and `connected` equal to `false`. -/
theorem c5_status_required_fields :
    (∀ o : List (String × Json), findField "storage" o = none →
        card.res.Status.decode (Json.obj o) = none) ∧
    (∀ o : List (String × Json), findField "status" o = none →
        card.res.Status.decode (Json.obj o) = none) ∧
    (∀ (s : String) (st t : Int), s.utf8ByteSize ≤ 10 → 0 ≤ st → st < 4294967296 →
        0 ≤ t → t < 18446744073709551616 →
      card.res.Status.decode
          (Json.obj [("status", Json.str s), ("storage", Json.num st), ("time", Json.num t)]) =
        some ⟨s, false, st, some t, false⟩) := by
  refine ⟨?_, ?_, ?_⟩
  · intro o h
    by_cases hd : dupKey ["status", "usb", "storage", "time", "connected"] o
    · simp [card.res.Status.decode, hd]
    · cases h1 : decReq (asStr 10) o "status" <;>
        cases h2 : decDefault asBool false o "usb" <;>
          simp [card.res.Status.decode, hd, h1, h2, decReq, h]
  · intro o h
    by_cases hd : dupKey ["status", "usb", "storage", "time", "connected"] o
    · simp [card.res.Status.decode, hd]
    · simp [card.res.Status.decode, hd, decReq, h]
  · intro s st t hs hst0 hst ht0 ht
    have hd : ¬ dupKey ["status", "usb", "storage", "time", "connected"]
        [("status", Json.str s), ("storage", Json.num st), ("time", Json.num t)] := by
      simp [dupKey]
    simp [card.res.Status.decode, hd, decReq, decOpt, decDefault, asStr, asU32, asU64,
          asBool, hs, hst0, hst, ht0, ht]

/-- C9: the `card.location.track` request serialized by
`Card::location_track` contains exactly one of the fields `start` and
`stop`; `"start":true` is present exactly when the `start` argument is
`true`, `"stop":true` exactly when it is `false`, and the value `false` is
never serialized under any field. -/
theorem c9_location_track_start_stop (start heartbeat sync : Bool) (hours : Option Int)
    (file : Option String) (hf : ∀ s, file = some s → s.utf8ByteSize ≤ 20) :
    ∃ r, card.location_track start heartbeat sync hours file = some r ∧
      countKey "start" r.jsonFields + countKey "stop" r.jsonFields = 1 ∧
      (findField "start" r.jsonFields = some (Json.bool true) ↔ start = true) ∧
      (findField "stop" r.jsonFields = some (Json.bool true) ↔ start = false) ∧
      (∀ k, (k, Json.bool false) ∉ r.jsonFields) := by
  have hbuild : ∃ file', heaplessFromOpt 20 file = some file' := by
    cases file with
    | none => exact ⟨none, rfl⟩
    | some s =>
      exact ⟨some s, by simp [heaplessFromOpt, heaplessFrom, hf s rfl]⟩
  obtain ⟨file', hfile⟩ := hbuild
  refine ⟨⟨"card.location.track",
           if start then some true else none,
           if heartbeat then some true else none,
           if sync then some true else none,
           if start then none else some true,
           hours, file'⟩, ?_, ?_, ?_, ?_, ?_⟩
  · simp [card.location_track, hfile]
  · cases start <;> simp [card.req.LocationTrack.jsonFields]
  · cases start <;> simp [card.req.LocationTrack.jsonFields]
  · cases start <;> simp [card.req.LocationTrack.jsonFields]
  · intro k
    cases start <;> cases heartbeat <;> cases sync <;> cases hours <;> cases file' <;>
      simp [card.req.LocationTrack.jsonFields, addOpt]

/-- C9 witness: at `start = true`, `heartbeat = false`, `sync = true`,
`hours = Some 2`, `file = Some "track.qo"` the request is built and the
serialized fields satisfy the start/stop properties. -/
theorem c9_location_track_start_stop_witness :
    ∃ r, card.location_track true false true (some 2) (some "track.qo") = some r ∧
      countKey "start" r.jsonFields + countKey "stop" r.jsonFields = 1 ∧
      (findField "start" r.jsonFields = some (Json.bool true) ↔ true = true) ∧
      (findField "stop" r.jsonFields = some (Json.bool true) ↔ true = false) ∧
      (∀ k, (k, Json.bool false) ∉ r.jsonFields) :=
  c9_location_track_start_stop true false true (some 2) (some "track.qo")
    (by intro s hs; cases hs; decide)

/-- C10: every `hub.set` request serialized by `Hub::set` carries the field
`product` exactly once — `null` when the argument is `None` — while `host`,
`mode` and `sn` are present exactly when their arguments are `Some`. -/
theorem c10_hub_set_product_always_present (product host : Option String)
    (mode : Option hub.req.HubMode) (sn : Option String) :
    findField "product" (hub.set product host mode sn).jsonFields =
        some (match product with | none => Json.null | some s => Json.str s) ∧
    countKey "product" (hub.set product host mode sn).jsonFields = 1 ∧
    countKey "host" (hub.set product host mode sn).jsonFields =
        (if host.isSome then 1 else 0) ∧
    countKey "mode" (hub.set product host mode sn).jsonFields =
        (if mode.isSome then 1 else 0) ∧
    countKey "sn" (hub.set product host mode sn).jsonFields =
        (if sn.isSome then 1 else 0) := by
  refine ⟨?_, ?_, ?_, ?_, ?_⟩ <;>
    simp [hub.set, hub.req.HubSet.jsonFields]

/-- C5 witness: with the source's test values, a `card.status` object missing
`storage` (or `status`) fails to decode, and one carrying only `status`,
`storage` and `time` decodes with `usb = false` and `connected = false`. -/
theorem c5_status_required_fields_witness :
    card.res.Status.decode (Json.obj [("status", Json.str "\x7bnormal\x7d")]) = none ∧
    card.res.Status.decode (Json.obj [("usb", Json.bool true), ("storage", Json.num 8)]) = none ∧
    card.res.Status.decode
        (Json.obj [("status", Json.str "\x7bnormal\x7d"), ("storage", Json.num 8),
                   ("time", Json.num 1599684765)]) =
      some ⟨"\x7bnormal\x7d", false, 8, some 1599684765, false⟩ :=
  ⟨c5_status_required_fields.1 _ rfl,
   c5_status_required_fields.2.1 _ rfl,
   c5_status_required_fields.2.2 "\x7bnormal\x7d" 8 1599684765 (by decide) (by decide)
     (by decide) (by decide) (by decide)⟩

section RoundtripLemmas

variable {α : Type} {k : String} {o : List (String × Json)}

theorem decOpt_str (cap : Nat) (v : Option String) (h : findField k o = v.map Json.str)
    (hcap : ∀ s, v = some s → s.utf8ByteSize ≤ cap) :
    decOpt (asStr cap) o k = some v := by
  cases v with
  | none => simp [decOpt, h]
  | some s => simp [decOpt, h, asStr, hcap s rfl]

theorem decOpt_anyStr (v : Option String) (h : findField k o = v.map Json.str) :
    decOpt asAnyStr o k = some v := by
  cases v with
  | none => simp [decOpt, h]
  | some s => simp [decOpt, h, asAnyStr]

theorem decOpt_bool (v : Option Bool) (h : findField k o = v.map Json.bool) :
    decOpt asBool o k = some v := by
  cases v with
  | none => simp [decOpt, h]
  | some b => simp [decOpt, h, asBool]

theorem decOpt_u32 (v : Option Int) (h : findField k o = v.map Json.num)
    (hb : ∀ n, v = some n → 0 ≤ n ∧ n < 4294967296) :
    decOpt asU32 o k = some v := by
  cases v with
  | none => simp [decOpt, h]
  | some n => simp [decOpt, h, asU32, (hb n rfl).1, (hb n rfl).2]

theorem decOpt_float (v : Option Int) (h : findField k o = v.map Json.num) :
    decOpt asFloat o k = some v := by
  cases v with
  | none => simp [decOpt, h]
  | some n => simp [decOpt, h, asFloat]

theorem decOpt_hubMode (v : Option hub.req.HubMode)
    (h : findField k o = v.map hub.req.HubMode.toJson) :
    decOpt hub.req.HubMode.ofJson o k = some v := by
  cases v with
  | none => simp [decOpt, h]
  | some m => cases m <;>
      simp [decOpt, h, hub.req.HubMode.toJson, hub.req.HubMode.ofJson]

theorem decOpt_product (v : Option String)
    (h : findField k o = some (match v with | none => Json.null | some s => Json.str s)) :
    decOpt asAnyStr o k = some v := by
  cases v with
  | none => simp [decOpt, h]
  | some s => simp [decOpt, h, asAnyStr]

theorem decReq_str (rq : String) (h : findField k o = some (Json.str rq)) :
    decReq asAnyStr o k = some rq := by
  simp [decReq, h, asAnyStr]

@[simp]
theorem findField_addOpt_self_of {f : α → Json} {v : Option α} {rest : List (String × Json)}
    (h : findField k rest = none) :
    findField k (addOpt k f v rest) = v.map f := by
  cases v <;> simp [addOpt, findField, h]

@[simp]
theorem not_two_le_optIndicator (v : Option α) :
    ¬ 2 ≤ (if v.isSome then (1 : Nat) else 0) := by
  cases v <;> simp

end RoundtripLemmas

/-- C4: for every value of a structured request type (`req::LocationMode`,
`req::LocationTrack`, `req::HubSet`) whose fields satisfy the invariants of
their Rust types (`heapless::String<20>` holds at most 20 bytes, `u32`
fields lie in `[0, 2^32)`), serializing it to JSON and deserializing the
result back yields the original value. -/
theorem c4_request_roundtrip :
    (∀ r : card.req.LocationMode,
      (∀ s, r.mode = some s → s.utf8ByteSize ≤ 20) →
      (∀ s, r.vseconds = some s → s.utf8ByteSize ≤ 20) →
      (∀ n, r.seconds = some n → 0 ≤ n ∧ n < 4294967296) →
      (∀ n, r.max = some n → 0 ≤ n ∧ n < 4294967296) →
      (∀ n, r.minutes = some n → 0 ≤ n ∧ n < 4294967296) →
      card.req.LocationMode.decode r.toJson = some r) ∧
    (∀ r : card.req.LocationTrack,
      (∀ s, r.file = some s → s.utf8ByteSize ≤ 20) →
      (∀ n, r.hours = some n → 0 ≤ n ∧ n < 4294967296) →
      card.req.LocationTrack.decode r.toJson = some r) ∧
    (∀ r : hub.req.HubSet, hub.req.HubSet.decode r.toJson = some r) := by
  refine ⟨?_, ?_, ?_⟩
  · intro r hmo hvs hse hmx hmi
    obtain ⟨rq, mo, se, vs, de, mx, la, lo, mi⟩ := r
    have h1 : decReq asAnyStr
        (card.req.LocationMode.jsonFields ⟨rq, mo, se, vs, de, mx, la, lo, mi⟩) "req" =
        some rq :=
      decReq_str rq (by simp [card.req.LocationMode.jsonFields])
    have h2 : decOpt (asStr 20)
        (card.req.LocationMode.jsonFields ⟨rq, mo, se, vs, de, mx, la, lo, mi⟩) "mode" =
        some mo :=
      decOpt_str 20 mo (by simp [card.req.LocationMode.jsonFields]) hmo
    have h3 : decOpt asU32
        (card.req.LocationMode.jsonFields ⟨rq, mo, se, vs, de, mx, la, lo, mi⟩) "seconds" =
        some se :=
      decOpt_u32 se (by simp [card.req.LocationMode.jsonFields]) hse
    have h4 : decOpt (asStr 20)
        (card.req.LocationMode.jsonFields ⟨rq, mo, se, vs, de, mx, la, lo, mi⟩) "vseconds" =
        some vs :=
      decOpt_str 20 vs (by simp [card.req.LocationMode.jsonFields]) hvs
    have h5 : decOpt asBool
        (card.req.LocationMode.jsonFields ⟨rq, mo, se, vs, de, mx, la, lo, mi⟩) "delete" =
        some de :=
      decOpt_bool de (by simp [card.req.LocationMode.jsonFields])
    have h6 : decOpt asU32
        (card.req.LocationMode.jsonFields ⟨rq, mo, se, vs, de, mx, la, lo, mi⟩) "max" =
        some mx :=
      decOpt_u32 mx (by simp [card.req.LocationMode.jsonFields]) hmx
    have h7 : decOpt asFloat
        (card.req.LocationMode.jsonFields ⟨rq, mo, se, vs, de, mx, la, lo, mi⟩) "lat" =
        some la :=
      decOpt_float la (by simp [card.req.LocationMode.jsonFields])
    have h8 : decOpt asFloat
        (card.req.LocationMode.jsonFields ⟨rq, mo, se, vs, de, mx, la, lo, mi⟩) "lon" =
        some lo :=
      decOpt_float lo (by simp [card.req.LocationMode.jsonFields])
    have h9 : decOpt asU32
        (card.req.LocationMode.jsonFields ⟨rq, mo, se, vs, de, mx, la, lo, mi⟩) "minutes" =
        some mi :=
      decOpt_u32 mi (by simp [card.req.LocationMode.jsonFields]) hmi
    have hdup : ¬ dupKey
        ["req", "mode", "seconds", "vseconds", "delete", "max", "lat", "lon", "minutes"]
        (card.req.LocationMode.jsonFields ⟨rq, mo, se, vs, de, mx, la, lo, mi⟩) := by
      simp [dupKey, card.req.LocationMode.jsonFields]
    simp [card.req.LocationMode.toJson, card.req.LocationMode.decode, hdup,
          h1, h2, h3, h4, h5, h6, h7, h8, h9]
  · intro r hfi hho
    obtain ⟨rq, st, hb, sy, sp, ho, fi⟩ := r
    have h1 : decReq asAnyStr
        (card.req.LocationTrack.jsonFields ⟨rq, st, hb, sy, sp, ho, fi⟩) "req" = some rq :=
      decReq_str rq (by simp [card.req.LocationTrack.jsonFields])
    have h2 : decOpt asBool
        (card.req.LocationTrack.jsonFields ⟨rq, st, hb, sy, sp, ho, fi⟩) "start" = some st :=
      decOpt_bool st (by simp [card.req.LocationTrack.jsonFields])
    have h3 : decOpt asBool
        (card.req.LocationTrack.jsonFields ⟨rq, st, hb, sy, sp, ho, fi⟩) "heartbeat" =
        some hb :=
      decOpt_bool hb (by simp [card.req.LocationTrack.jsonFields])
    have h4 : decOpt asBool
        (card.req.LocationTrack.jsonFields ⟨rq, st, hb, sy, sp, ho, fi⟩) "sync" = some sy :=
      decOpt_bool sy (by simp [card.req.LocationTrack.jsonFields])
    have h5 : decOpt asBool
        (card.req.LocationTrack.jsonFields ⟨rq, st, hb, sy, sp, ho, fi⟩) "stop" = some sp :=
      decOpt_bool sp (by simp [card.req.LocationTrack.jsonFields])
    have h6 : decOpt asU32
        (card.req.LocationTrack.jsonFields ⟨rq, st, hb, sy, sp, ho, fi⟩) "hours" = some ho :=
      decOpt_u32 ho (by simp [card.req.LocationTrack.jsonFields]) hho
    have h7 : decOpt (asStr 20)
        (card.req.LocationTrack.jsonFields ⟨rq, st, hb, sy, sp, ho, fi⟩) "file" = some fi :=
      decOpt_str 20 fi (by simp [card.req.LocationTrack.jsonFields]) hfi
    have hdup : ¬ dupKey ["req", "start", "heartbeat", "sync", "stop", "hours", "file"]
        (card.req.LocationTrack.jsonFields ⟨rq, st, hb, sy, sp, ho, fi⟩) := by
      simp [dupKey, card.req.LocationTrack.jsonFields]
    simp [card.req.LocationTrack.toJson, card.req.LocationTrack.decode, hdup,
          h1, h2, h3, h4, h5, h6, h7]
  · intro r
    obtain ⟨rq, pr, hs, mo, sn⟩ := r
    have h1 : decReq asAnyStr (hub.req.HubSet.jsonFields ⟨rq, pr, hs, mo, sn⟩) "req" =
        some rq :=
      decReq_str rq (by simp [hub.req.HubSet.jsonFields])
    have h2 : decOpt asAnyStr (hub.req.HubSet.jsonFields ⟨rq, pr, hs, mo, sn⟩) "product" =
        some pr :=
      decOpt_product pr (by simp [hub.req.HubSet.jsonFields])
    have h3 : decOpt asAnyStr (hub.req.HubSet.jsonFields ⟨rq, pr, hs, mo, sn⟩) "host" =
        some hs :=
      decOpt_anyStr hs (by simp [hub.req.HubSet.jsonFields])
    have h4 : decOpt hub.req.HubMode.ofJson (hub.req.HubSet.jsonFields ⟨rq, pr, hs, mo, sn⟩)
        "mode" = some mo :=
      decOpt_hubMode mo (by simp [hub.req.HubSet.jsonFields])
    have h5 : decOpt asAnyStr (hub.req.HubSet.jsonFields ⟨rq, pr, hs, mo, sn⟩) "sn" =
        some sn :=
      decOpt_anyStr sn (by simp [hub.req.HubSet.jsonFields])
    have hdup : ¬ dupKey ["req", "product", "host", "mode", "sn"]
        (hub.req.HubSet.jsonFields ⟨rq, pr, hs, mo, sn⟩) := by
      simp [dupKey, hub.req.HubSet.jsonFields]
    simp [hub.req.HubSet.toJson, hub.req.HubSet.decode, hdup, h1, h2, h3, h4, h5]

/-- C4 witness: round trips at the concrete requests used by the source
tests (`card.location.mode` with `mode`/`seconds`, `card.location.track`
with `start`/`sync`/`hours`/`file`, `hub.set` with the `hub_set_some` test
values). -/
theorem c4_request_roundtrip_witness :
    card.req.LocationMode.decode (card.req.LocationMode.toJson
        ⟨"card.location.mode", some "periodic", some 60, none, none, none, none, none, none⟩) =
      some ⟨"card.location.mode", some "periodic", some 60, none, none, none, none, none,
            none⟩ ∧
    card.req.LocationTrack.decode (card.req.LocationTrack.toJson
        ⟨"card.location.track", some true, none, some true, none, some 2, some "track.qo"⟩) =
      some ⟨"card.location.track", some true, none, some true, none, some 2,
            some "track.qo"⟩ ∧
    hub.req.HubSet.decode (hub.req.HubSet.toJson
        ⟨"hub.set", some "testprod", some "testhost", some .Periodic, none⟩) =
      some ⟨"hub.set", some "testprod", some "testhost", some .Periodic, none⟩ :=
  ⟨c4_request_roundtrip.1 _
      (by intro s h; simp at h; subst h; decide)
      (by intro s h; simp at h)
      (by intro n h; simp at h; subst h; decide)
      (by intro n h; simp at h)
      (by intro n h; simp at h),
   c4_request_roundtrip.2.1 _
      (by intro s h; simp at h; subst h; decide)
      (by intro n h; simp at h; subst h; decide),
   c4_request_roundtrip.2.2 _⟩
